import Mathlib

/-!
Verification of the DukeUltrasound dataset builder
(`tensorflow_datasets/image/duke_ultrasound.py`).

The builder is a thin adapter: a split resolver (`_split_generators`) that
maps split names to (data directories, CSV manifest) pairs obtained from a
download service, and a record builder (`_generate_examples`) that, for
each manifest row, loads a `.mat` file, derives a log-magnitude sequence
and real/imaginary planes from the complex IQ array, and emits one
`(key, record)` pair keyed by the row's filename.

We embed the data model and both routines below.  Arrays are modelled as
Lean lists; the flattened complex IQ array is a list of `Cx` (pairs of
real numbers); floating-point arithmetic is idealised over `ℝ` (claims
about numeric values are stated exactly, matching the "within
floating-point tolerance" reading).  `np.max` over a nonempty array is
modelled by `listMax`; Python `KeyError` / fatal file errors are modelled
by `Option`.
-/

/-- A complex sample of the flattened IQ array: `matfile['iq']` entries. -/
structure Cx where
  re : ℝ
  im : ℝ

/-- `np.abs` on a complex sample. -/
noncomputable def magnitude (z : Cx) : ℝ := Real.sqrt (z.re ^ 2 + z.im ^ 2)

/-- `np.max` over a flattened array: the maximum of a nonempty list
(`0` as junk value on the empty list, where numpy would raise). -/
noncomputable def listMax : List ℝ → ℝ
  | [] => 0
  | x :: xs => xs.foldl max x

/-- One CSV manifest row as produced by `csv.DictReader`: every field is a
string, keyed by the manifest's column names. -/
structure Row where
  filename : String
  target : String
  f0 : String
  v : String
  focus_cm : String
  axial_samples : String
  lateral_samples : String
  initial_radius : String
  final_radius : String
  initial_angle : String
  final_angle : String
  probe : String
  scanner : String
  timestamp_id : String
  harm : String

/-- The contents of one matrix (`.mat`) file: the complex IQ array and the
real reference array, both already flattened (`np.reshape(·, -1)`). -/
structure MatFile where
  iq : List Cx
  dtce : List ℝ

/-- The nested `das` feature of an emitted record. -/
structure Das where
  dB : List ℝ
  real : List ℝ
  imag : List ℝ

/-- One emitted record (the dict yielded by `_generate_examples`): derived
sequences plus the scalar metadata fields copied verbatim (as strings)
from the manifest row; type coercion happens downstream. -/
structure Record where
  das : Das
  dtce : List ℝ
  f0_hz : String
  voltage : String
  focus_cm : String
  height : String
  width : String
  initial_radius : String
  final_radius : String
  initial_angle : String
  final_angle : String
  probe : String
  scanner : String
  target : String
  timestamp_id : String
  harmonic : String

/-- The `datapath` dict passed to `_generate_examples` for the default
splits: local roots for the two data archives. -/
structure DataPath where
  mark_data : String
  phantom_data : String

/-- `os.path.join` for a directory and a relative filename. -/
def pathJoin (dir file : String) : String := dir ++ "/" ++ file

/-- `data_key = 'mark_data' if row['target'] == 'mark' else 'phantom_data'`. -/
def dataKey (row : Row) : String :=
  if row.target = "mark" then "mark_data" else "phantom_data"

/-- Dict lookup `datapath[key]` on the two-key `datapath` dict. -/
def DataPath.get (dp : DataPath) (key : String) : Option String :=
  if key = "mark_data" then some dp.mark_data
  else if key = "phantom_data" then some dp.phantom_data
  else none

/-- The absolute matrix-file path resolved for a row:
`os.path.join(datapath[data_key], row['filename'])`. -/
def resolvePath (dp : DataPath) (row : Row) : Option String :=
  (dp.get (dataKey row)).map (fun d => pathJoin d row.filename)

/-- The per-row transform of `_generate_examples`:
`iq = np.abs(np.reshape(matfile['iq'], -1))`, `iq = iq/iq.max()`,
`iq = 20*np.log10(iq)`, then the yielded dict with real/imaginary parts of
the non-normalized IQ array, the flattened `dtce` array and the metadata
fields copied from the row. -/
noncomputable def makeRecord (row : Row) (mat : MatFile) : Record :=
  let iq1 := mat.iq.map magnitude
  let iq2 := iq1.map (fun x => x / listMax iq1)
  let iq3 := iq2.map (fun x => 20 * Real.logb 10 x)
  { das :=
      { dB := iq3
        real := mat.iq.map Cx.re
        imag := mat.iq.map Cx.im }
    dtce := mat.dtce
    f0_hz := row.f0
    voltage := row.v
    focus_cm := row.focus_cm
    height := row.axial_samples
    width := row.lateral_samples
    initial_radius := row.initial_radius
    final_radius := row.final_radius
    initial_angle := row.initial_angle
    final_angle := row.final_angle
    probe := row.probe
    scanner := row.scanner
    target := row.target
    timestamp_id := row.timestamp_id
    harmonic := row.harm }

/-- `_generate_examples` over a manifest (list of parsed CSV rows), a
`datapath` dict and a filesystem `fs` mapping paths to matrix files.
A missing key or missing/unreadable matrix file aborts generation for the
split (`none`), mirroring the fatal Python exception; otherwise the full
ordered list of `(key, record)` pairs is produced. -/
noncomputable def generateExamples (fs : String → Option MatFile) (dp : DataPath) :
    List Row → Option (List (String × Record))
  | [] => some []
  | row :: rest => do
      let dir ← dp.get (dataKey row)
      let mat ← fs (pathJoin dir row.filename)
      let out ← generateExamples fs dp rest
      pure ((row.filename, makeRecord row mat) :: out)

/-- `_DATA_URL`: the two downloadable data archives. -/
def DATA_URL : List (String × String) :=
  [("phantom_data", "https://research.repository.duke.edu/downloads/vt150j912"),
   ("mark_data", "https://research.repository.duke.edu/downloads/4x51hj56d")]

/-- `_DEFAULT_SPLITS`: the downloadable CSV manifests, one per default
split name. -/
def DEFAULT_SPLITS : List (String × String) :=
  [("train", "https://research.repository.duke.edu/downloads/tt44pn391"),
   ("test", "https://research.repository.duke.edu/downloads/zg64tm441"),
   ("validation", "https://research.repository.duke.edu/downloads/dj52w535x"),
   ("MARK", "https://research.repository.duke.edu/downloads/wd375w77v"),
   ("A", "https://research.repository.duke.edu/downloads/nc580n18d"),
   ("B", "https://research.repository.duke.edu/downloads/7h149q56p")]

/-- The `datapath` gen_kwarg of a split generator: the default splits pass
a two-key dict, the custom-split branch passes a single path
(`dl_paths['data']`). -/
inductive GenDataPath where
  | dict (dp : DataPath)
  | single (path : String)

/-- One `tfds.core.SplitGenerator` as built by `_split_generators`. -/
structure SplitGen where
  name : String
  num_shards : Nat
  datapath : GenDataPath
  csvpath : String

/-- `dl_manager.download_and_extract({**_DEFAULT_SPLITS, **_DATA_URL})`:
the resulting dict, as an association list from name to local path.
`download` abstracts the external service resolving a URL to a local
path.  The two key sets are disjoint, so merge order is irrelevant to
lookups. -/
def downloadAndExtract (download : String → String) : List (String × String) :=
  (DEFAULT_SPLITS ++ DATA_URL).map (fun p => (p.1, download p.2))

/-- One split generator of the `_DEFAULT_SPLITS` comprehension: dict-shaped
`datapath` from the `dl_paths['mark_data']`/`dl_paths['phantom_data']`
roots, manifest from `dl_paths[name]`.  A missing dict key (Python
`KeyError`) yields `none`. -/
def defaultSplitGen (dlPaths : List (String × String))
    (p : String × String) : Option SplitGen := do
  let mark ← dlPaths.lookup "mark_data"
  let phantom ← dlPaths.lookup "phantom_data"
  let csvp ← dlPaths.lookup p.1
  pure { name := p.1, num_shards := 10,
         datapath := GenDataPath.dict ⟨mark, phantom⟩,
         csvpath := csvp }

/-- One split generator of the `custom_csv_splits` loop: its `datapath` is
the dict entry `dl_paths['data']` and its manifest is the caller-supplied
local CSV path.  A missing dict key (Python `KeyError`) yields `none`. -/
def customSplitGen (dlPaths : List (String × String))
    (p : String × String) : Option SplitGen := do
  let d ← dlPaths.lookup "data"
  pure { name := p.1, num_shards := 10,
         datapath := GenDataPath.single d,
         csvpath := p.2 }

/-- `_split_generators`: one split generator per default split, then one
per caller-supplied custom split, in that order. -/
def splitGenerators (download : String → String)
    (custom : List (String × String)) : Option (List SplitGen) := do
  let dlPaths := downloadAndExtract download
  let defaults ← DEFAULT_SPLITS.mapM (defaultSplitGen dlPaths)
  let customs ← custom.mapM (customSplitGen dlPaths)
  pure (defaults ++ customs)

/-! ### Helper lemmas -/

lemma foldl_max_le_acc (xs : List ℝ) (x : ℝ) : x ≤ xs.foldl max x := by
  induction xs generalizing x with
  | nil => exact le_refl x
  | cons y ys ih => exact le_trans (le_max_left x y) (ih (max x y))

lemma foldl_max_of_mem {y : ℝ} {xs : List ℝ} (h : y ∈ xs) (x : ℝ) :
    y ≤ xs.foldl max x := by
  induction xs generalizing x with
  | nil => simp at h
  | cons z zs ih =>
      rcases List.mem_cons.mp h with h1 | h2
      · subst h1
        exact le_trans (le_max_right x y) (foldl_max_le_acc zs (max x y))
      · exact ih h2 (max x z)

lemma foldl_max_mem_or (xs : List ℝ) (x : ℝ) :
    xs.foldl max x = x ∨ xs.foldl max x ∈ xs := by
  induction xs generalizing x with
  | nil => exact Or.inl rfl
  | cons z zs ih =>
      rcases ih (max x z) with h | h
      · rw [List.foldl_cons, h]
        rcases max_choice x z with h1 | h1
        · exact Or.inl h1
        · rw [h1]
          exact Or.inr (List.mem_cons_self z zs)
      · exact Or.inr (List.mem_cons_of_mem z h)

lemma le_listMax {y : ℝ} {l : List ℝ} (h : y ∈ l) : y ≤ listMax l := by
  cases l with
  | nil => simp at h
  | cons x xs =>
      rcases List.mem_cons.mp h with h1 | h2
      · exact h1 ▸ foldl_max_le_acc xs x
      · exact foldl_max_of_mem h2 x

lemma listMax_mem {l : List ℝ} (h : l ≠ []) : listMax l ∈ l := by
  cases l with
  | nil => exact absurd rfl h
  | cons x xs =>
      rcases foldl_max_mem_or xs x with h1 | h1
      · simp only [listMax]
        rw [h1]
        exact List.mem_cons_self x xs
      · simp only [listMax]
        exact List.mem_cons_of_mem x h1

lemma listMax_eq_of_mem_of_le {l : List ℝ} {c : ℝ} (hc : c ∈ l)
    (hle : ∀ x ∈ l, x ≤ c) : listMax l = c :=
  le_antisymm (hle _ (listMax_mem (List.ne_nil_of_mem hc))) (le_listMax hc)

lemma magnitude_nonneg (z : Cx) : 0 ≤ magnitude z := Real.sqrt_nonneg _

lemma magnitude_pos {z : Cx} (h : ¬(z.re = 0 ∧ z.im = 0)) : 0 < magnitude z := by
  rw [magnitude, Real.sqrt_pos]
  rcases not_and_or.mp h with h1 | h1 <;> positivity

lemma magnitude_zero {z : Cx} (h1 : z.re = 0) (h2 : z.im = 0) : magnitude z = 0 := by
  simp [magnitude, h1, h2]

lemma getD_map {α β : Type} (f : α → β) (l : List α) (i : Nat)
    (h : i < l.length) (d : β) (d0 : α) : (l.map f).getD i d = f (l.getD i d0) := by
  induction l generalizing i with
  | nil => simp at h
  | cons x xs ih =>
      cases i with
      | zero => simp
      | succ n => simpa using ih n (by simpa using h)

/-- The `datapath` dict lookup at the computed `data_key` always succeeds
and selects the mark root exactly for rows whose target is the sentinel. -/
lemma get_dataKey (dp : DataPath) (row : Row) :
    dp.get (dataKey row) =
      some (if row.target = "mark" then dp.mark_data else dp.phantom_data) := by
  by_cases h : row.target = "mark" <;> simp [dataKey, DataPath.get, h]

/-- The maximum of the emitted `das.dB` sequence is `0` whenever some IQ
sample is non-zero: every normalized magnitude lies in `[0, 1]`, and the
sample attaining the maximum magnitude normalizes to `1`, whose base-10
logarithm is `0`. -/
lemma listMax_dB_eq_zero (row : Row) (mat : MatFile)
    (h : ∃ z ∈ mat.iq, ¬(z.re = 0 ∧ z.im = 0)) :
    listMax ((makeRecord row mat).das.dB) = 0 := by
  obtain ⟨z, hzmem, hznz⟩ := h
  have hmagmem : magnitude z ∈ mat.iq.map magnitude :=
    List.mem_map_of_mem magnitude hzmem
  have hmpos : 0 < listMax (mat.iq.map magnitude) :=
    lt_of_lt_of_le (magnitude_pos hznz) (le_listMax hmagmem)
  set m := listMax (mat.iq.map magnitude) with hm
  have hdB : (makeRecord row mat).das.dB =
      ((mat.iq.map magnitude).map (fun x => x / m)).map
        (fun x => 20 * Real.logb 10 x) := by
    simp [makeRecord]
  rw [hdB]
  apply listMax_eq_of_mem_of_le
  · have hmmem : m ∈ mat.iq.map magnitude :=
      listMax_mem (List.ne_nil_of_mem hmagmem)
    have : (0 : ℝ) = 20 * Real.logb 10 (m / m) := by
      rw [div_self (ne_of_gt hmpos), Real.logb_one, mul_zero]
    rw [this]
    exact List.mem_map_of_mem _ (List.mem_map_of_mem _ hmmem)
  · intro x hx
    rcases List.mem_map.mp hx with ⟨y, hy, hyx⟩
    rcases List.mem_map.mp hy with ⟨w, hw, hwy⟩
    rcases List.mem_map.mp hw with ⟨u, _, hum⟩
    have hw0 : 0 ≤ w := hum ▸ magnitude_nonneg u
    have hwle : w ≤ m := le_listMax hw
    have hquot0 : 0 ≤ w / m := div_nonneg hw0 (le_of_lt hmpos)
    have hquot1 : w / m ≤ 1 := (div_le_one hmpos).mpr hwle
    have : Real.logb 10 (w / m) ≤ 0 :=
      Real.logb_nonpos (by norm_num) hquot0 hquot1
    rw [← hyx, ← hwy]
    nlinarith

/-! ### Claims -/

/-- C2 (counterexample): the claim that there are exactly five downloadable
CSV manifests is false: `_DEFAULT_SPLITS` has six entries. -/
theorem c2_five_manifests_counterexample :
    ¬ (DATA_URL.length = 2 ∧ DEFAULT_SPLITS.length = 5) := by
  intro h
  exact absurd h.2 (by decide)

/-- C2 (amended): the builder's fixed external inputs are exactly two
downloadable data archives (`phantom_data` and `mark_data`) and exactly six
downloadable CSV manifests (train, test, validation, MARK, A, B), each
identified by a fixed URL. -/
theorem c2_input_counts :
    DATA_URL.length = 2 ∧ DEFAULT_SPLITS.length = 6 ∧
    DATA_URL.map Prod.fst = ["phantom_data", "mark_data"] ∧
    DEFAULT_SPLITS.map Prod.fst = ["train", "test", "validation", "MARK", "A", "B"] :=
  ⟨rfl, rfl, rfl, rfl⟩

/-- C5: for every manifest row, the emitted `das.dB`, `das.real` and
`das.imag` sequences have equal lengths, all being maps over the same
flattened IQ array. -/
theorem c5_equal_lengths (row : Row) (mat : MatFile) :
    ((makeRecord row mat).das.dB).length = ((makeRecord row mat).das.real).length ∧
    ((makeRecord row mat).das.real).length = ((makeRecord row mat).das.imag).length := by
  constructor <;> simp [makeRecord]

/-- C7: the matrix-file path of a row whose target is the sentinel `"mark"`
is the mark (reference) data directory joined with the row's filename; for
every other target it is the phantom data directory joined with the
filename. -/
theorem c7_directory_selection (dp : DataPath) (row : Row) :
    resolvePath dp row =
      some (pathJoin
        (if row.target = "mark" then dp.mark_data else dp.phantom_data)
        row.filename) := by
  rw [resolvePath, get_dataKey, Option.map_some']

/-- C10: the example generator is deterministic — two runs over
extensionally equal filesystem contents, the same data-directory mapping
and the same manifest rows produce identical ordered lists of
(key, record) pairs. -/
theorem c10_deterministic (fs1 fs2 : String → Option MatFile)
    (dp1 dp2 : DataPath) (rows1 rows2 : List Row)
    (hfs : ∀ p, fs1 p = fs2 p) (hdp : dp1 = dp2) (hrows : rows1 = rows2) :
    generateExamples fs1 dp1 rows1 = generateExamples fs2 dp2 rows2 := by
  rw [funext hfs, hdp, hrows]

/-- C10 witness: the determinism theorem applied at a concrete input. -/
theorem c10_deterministic_witness :
    generateExamples (fun _ => none) ⟨"m", "p"⟩ [] =
      generateExamples (fun _ => none) ⟨"m", "p"⟩ [] :=
  c10_deterministic _ _ _ _ _ _ (fun _ => rfl) rfl rfl

/-! ### Concrete sample inputs used by witnesses and the end-to-end claim -/

/-- A concrete manifest row (target is the `"mark"` sentinel, `harm` is the
string `"False"`). -/
def sampleRow : Row :=
  { filename := "a.mat", target := "mark", f0 := "5000000", v := "30",
    focus_cm := "5", axial_samples := "100", lateral_samples := "200",
    initial_radius := "1", final_radius := "2", initial_angle := "0",
    final_angle := "1", probe := "p42v", scanner := "vera",
    timestamp_id := "10", harm := "False" }

/-- A matrix file whose IQ array is all zero. -/
noncomputable def zeroMat : MatFile := ⟨[⟨0, 0⟩], []⟩

/-- A matrix file with one non-zero IQ sample. -/
noncomputable def mat4 : MatFile := ⟨[⟨3, 4⟩], [1]⟩

/-- A matrix file with one IQ sample of unit real and imaginary parts. -/
noncomputable def mat6 : MatFile := ⟨[⟨1, 1⟩], []⟩

lemma foldl_max_replicate_zero (n : Nat) :
    (List.replicate n (0 : ℝ)).foldl max 0 = 0 := by
  induction n with
  | zero => rfl
  | succ k ih => simpa [List.replicate_succ] using ih

lemma listMax_replicate_zero (n : Nat) :
    listMax (List.replicate n (0 : ℝ)) = 0 := by
  cases n with
  | zero => rfl
  | succ k =>
      simp only [List.replicate_succ, listMax]
      exact foldl_max_replicate_zero k

/-- C3: for a row whose flattened IQ array is all zero, the per-row
transform divides by a zero maximum with no guard: the divisor
`iq.max()` equals `0`, and the emitted `das.dB` sequence is literally the
unguarded expression `20 * log10(x / 0)` at every position. -/
theorem c3_unguarded_division_by_zero (row : Row) (mat : MatFile)
    (_hne : mat.iq ≠ []) (hz : ∀ z ∈ mat.iq, z.re = 0 ∧ z.im = 0) :
    listMax (mat.iq.map magnitude) = 0 ∧
    (makeRecord row mat).das.dB =
      List.replicate mat.iq.length (20 * Real.logb 10 ((0 : ℝ) / 0)) := by
  have hmags : mat.iq.map magnitude = List.replicate mat.iq.length 0 := by
    rw [List.eq_replicate_iff]
    refine ⟨by simp, ?_⟩
    intro b hb
    rcases List.mem_map.mp hb with ⟨z, hzm, hzb⟩
    rcases hz z hzm with ⟨h1, h2⟩
    rw [← hzb]
    exact magnitude_zero h1 h2
  have hmax : listMax (mat.iq.map magnitude) = 0 := by
    rw [hmags]
    exact listMax_replicate_zero _
  refine ⟨hmax, ?_⟩
  have hdB : (makeRecord row mat).das.dB =
      ((mat.iq.map magnitude).map
        (fun x => x / listMax (mat.iq.map magnitude))).map
          (fun x => 20 * Real.logb 10 x) := by
    simp [makeRecord]
  rw [hdB, hmax, hmags, List.map_replicate, List.map_replicate]

/-- C3 witness: the division-by-zero theorem applied to a concrete all-zero
IQ array. -/
theorem c3_witness :
    listMax (zeroMat.iq.map magnitude) = 0 ∧
    (makeRecord sampleRow zeroMat).das.dB =
      List.replicate zeroMat.iq.length (20 * Real.logb 10 ((0 : ℝ) / 0)) :=
  c3_unguarded_division_by_zero sampleRow zeroMat (by simp [zeroMat])
    (by
      intro z hz
      rw [show zeroMat.iq = [⟨0, 0⟩] from rfl, List.mem_singleton] at hz
      subst hz
      exact ⟨rfl, rfl⟩)

/-- C4: for every manifest row whose IQ array has at least one non-zero
sample, the maximum of the emitted `das.dB` sequence equals `0`. -/
theorem c4_max_dB_zero (row : Row) (mat : MatFile)
    (h : ∃ z ∈ mat.iq, ¬(z.re = 0 ∧ z.im = 0)) :
    listMax ((makeRecord row mat).das.dB) = 0 :=
  listMax_dB_eq_zero row mat h

/-- C4 witness: the max-dB theorem applied to a concrete IQ array with one
non-zero sample. -/
theorem c4_witness : listMax ((makeRecord sampleRow mat4).das.dB) = 0 :=
  c4_max_dB_zero sampleRow mat4
    ⟨⟨3, 4⟩, List.mem_singleton.mpr rfl,
      fun hc => absurd hc.1 (by norm_num)⟩

/-- C6: at every index of the flattened IQ array, the squares of the
emitted `das.real` and `das.imag` entries sum to the squared element-wise
magnitude computed before normalization. -/
theorem c6_real_imag_pythagoras (row : Row) (mat : MatFile) (i : Nat)
    (h : i < mat.iq.length) :
    ((makeRecord row mat).das.real.getD i 0) ^ 2 +
      ((makeRecord row mat).das.imag.getD i 0) ^ 2 =
    (magnitude (mat.iq.getD i ⟨0, 0⟩)) ^ 2 := by
  have hre : (makeRecord row mat).das.real = mat.iq.map Cx.re := by
    simp [makeRecord]
  have him : (makeRecord row mat).das.imag = mat.iq.map Cx.im := by
    simp [makeRecord]
  rw [hre, him, getD_map Cx.re mat.iq i h 0 ⟨0, 0⟩,
    getD_map Cx.im mat.iq i h 0 ⟨0, 0⟩, magnitude,
    Real.sq_sqrt (by positivity)]

/-- C6 witness: the Pythagorean identity applied at index `0` of a concrete
IQ array. -/
theorem c6_witness :
    ((makeRecord sampleRow mat6).das.real.getD 0 0) ^ 2 +
      ((makeRecord sampleRow mat6).das.imag.getD 0 0) ^ 2 =
    (magnitude (mat6.iq.getD 0 ⟨0, 0⟩)) ^ 2 :=
  c6_real_imag_pythagoras sampleRow mat6 0 (by simp [mat6])

/-! ### End-to-end concrete inputs -/

/-- The one-row manifest row of the end-to-end scenario. -/
def row9 : Row := sampleRow

/-- The matrix file of the end-to-end scenario:
`iq = [1+1j, 0+2j]`, `dtce = [0.1, 0.2]`. -/
noncomputable def mat9 : MatFile := ⟨[⟨1, 1⟩, ⟨0, 2⟩], [0.1, 0.2]⟩

/-- The data-directory mapping of the end-to-end scenario. -/
def dp9 : DataPath := ⟨"markdir", "phantomdir"⟩

/-- The filesystem of the end-to-end scenario: the matrix file sits at the
mark (reference) directory joined with the row's filename. -/
noncomputable def fs9 : String → Option MatFile :=
  fun p => if p = "markdir/a.mat" then some mat9 else none

/-- Generation over the one-row manifest succeeds and emits exactly one
pair, keyed by the row's filename. -/
lemma gen9 : generateExamples fs9 dp9 [row9] =
    some [("a.mat", makeRecord row9 mat9)] := rfl

/-- C8: for every run of the generator that completes, the emitted keys are
exactly the rows' filename fields in manifest order; hence if no two rows
of the manifest share a filename, the emitted keys are pairwise
distinct. -/
theorem c8_keys_are_filenames (fs : String → Option MatFile) (dp : DataPath)
    (rows : List Row) (out : List (String × Record))
    (h : generateExamples fs dp rows = some out) :
    out.map Prod.fst = rows.map Row.filename ∧
    ((rows.map Row.filename).Nodup → (out.map Prod.fst).Nodup) := by
  have hmain : ∀ (rs : List Row) (o : List (String × Record)),
      generateExamples fs dp rs = some o →
        o.map Prod.fst = rs.map Row.filename := by
    intro rs
    induction rs with
    | nil =>
        intro o ho
        simp only [generateExamples, Option.some.injEq] at ho
        rw [← ho]
        rfl
    | cons row rest ih =>
        intro o ho
        rw [generateExamples, get_dataKey] at ho
        simp only [Option.bind_eq_bind, Option.some_bind] at ho
        cases hfs : fs (pathJoin
            (if row.target = "mark" then dp.mark_data else dp.phantom_data)
            row.filename) with
        | none => rw [hfs] at ho; simp at ho
        | some mat =>
            cases hrest : generateExamples fs dp rest with
            | none => rw [hfs, hrest] at ho; simp at ho
            | some o1 =>
                rw [hfs, hrest] at ho
                simp only [Option.bind_eq_bind, Option.some_bind,
                  Option.pure_def, Option.some.injEq] at ho
                rw [← ho]
                simp [ih o1 hrest]
  have h1 := hmain rows out h
  exact ⟨h1, fun hnd => h1 ▸ hnd⟩

/-- C8 witness: the key theorem applied to the concrete one-row run. -/
theorem c8_witness :
    ([("a.mat", makeRecord row9 mat9)].map Prod.fst =
      [row9].map Row.filename) ∧
    (([row9].map Row.filename).Nodup →
      (([("a.mat", makeRecord row9 mat9)]).map Prod.fst).Nodup) :=
  c8_keys_are_filenames fs9 dp9 [row9] [("a.mat", makeRecord row9 mat9)] gen9

/-- C9: end-to-end scenario — for the one-row manifest
(`filename "a.mat"`, `target "mark"`, `harm "False"`) with the matrix file
`iq = [1+1j, 0+2j]`, `dtce = [0.1, 0.2]` stored in the reference (mark)
directory, generation emits exactly one pair with key `"a.mat"` whose
record has `das.real = [1, 0]`, `das.imag = [1, 2]`, a `das.dB` of length
2 with maximum `0`, `dtce = [0.1, 0.2]`, and the harmonic field copied
verbatim from the row's `harm` string `"False"` (coerced to the boolean
`False` by the downstream schema layer). -/
theorem c9_end_to_end :
    generateExamples fs9 dp9 [row9] = some [("a.mat", makeRecord row9 mat9)] ∧
    (makeRecord row9 mat9).das.real = [1, 0] ∧
    (makeRecord row9 mat9).das.imag = [1, 2] ∧
    (makeRecord row9 mat9).das.dB.length = 2 ∧
    listMax ((makeRecord row9 mat9).das.dB) = 0 ∧
    (makeRecord row9 mat9).dtce = [0.1, 0.2] ∧
    (makeRecord row9 mat9).harmonic = "False" := by
  refine ⟨gen9, rfl, rfl, rfl, ?_, rfl, rfl⟩
  exact listMax_dB_eq_zero row9 mat9
    ⟨⟨1, 1⟩, List.mem_cons_self _ _, fun hc => absurd hc.1 (by norm_num)⟩

/-- C1 (code bug): registering any custom split makes `_split_generators`
look up the key `'data'` in the downloaded-paths dict, whose keys are only
the six default split names plus `phantom_data` and `mark_data`; the
lookup fails (Python `KeyError`), so no custom split resolving against the
already-downloaded default data directories is ever produced. -/
theorem c1_custom_split_keyerror (download : String → String) :
    (downloadAndExtract download).lookup "data" = none ∧
    splitGenerators download [("extra", "extra.csv")] = none := by
  have hlook : (downloadAndExtract download).lookup "data" = none := rfl
  refine ⟨hlook, ?_⟩
  have hc : customSplitGen (downloadAndExtract download)
      ("extra", "extra.csv") = none := by
    simp only [customSplitGen, hlook, Option.bind_eq_bind, Option.none_bind]
  have hcust : List.mapM.loop (customSplitGen (downloadAndExtract download))
      [("extra", "extra.csv")] [] = none := by
    simp only [List.mapM.loop, hc, Option.bind_eq_bind, Option.none_bind]
  simp only [splitGenerators, List.mapM, hcust, Option.bind_eq_bind,
    Option.none_bind, Option.bind_none]
